import Mathlib

/-!
# Shallow embedding of the `computer-use-preview` early-experience core

This file embeds the two subsystems of the repository that carry all of the
non-trivial logic, translated from the Python source:

* `src/models/behavior_prior.py` — the `ActionStats` / `BehaviorPrior`
  aggregate, its fitting pass (`fit_from_episodes`), persistence
  (`to_dict` / `from_dict`, `save` / `load`), and the sampling /
  validation operations (`sample_coordinates`, `sample_scroll`,
  `validate_or_adjust`);
* `src/data_pipeline/collector.py` — the episode-collection loop
  (`collect_episodes`), its domain guard (`_domain_allowed`) and its
  failure-recovery behaviour.

Modelling conventions:

* Python numbers (ints and floats) are modelled as exact rationals `ℚ`
  (ints that must stay integral, e.g. pixel outputs, as `Int`).  The
  Python code computes in IEEE doubles; all claims proved here are exact
  statements of the algorithms, i.e. their real-arithmetic content.
* A Python standard deviation `std = math.sqrt (v)` is represented by
  the *square* `v` of the stored value (fields `std_x_sq`, `std_y_sq`):
  every std the code ever stores is `sqrt` of a nonnegative rational, and
  squaring is injective on nonnegatives, so equalities between stds are
  stated faithfully on the squares (or through `Real.sqrt` of them).
* Python dict-shaped action arguments are association lists
  `List (String × Value)` with first-match lookup and replace-or-append
  update, mirroring dict reads and writes; `Value` carries the Python
  scalar types the code inspects (`isinstance` checks, truthiness).
* Randomness (`random.gauss`, `random.randint`, `random.choice`) and the
  environment driven by the collector are oracled: each draw / response
  is an explicit input, so theorems quantify over every possible draw.
* File-system effects are modelled by their contract: an episodes corpus
  is a list of directory entries whose index file is missing, malformed
  (i.e. `json.load` raises) or parsed; `save`/`load` go through an exact
  document structure (Python's `json` round-trips ints, floats and
  strings exactly, and preserves dict entry order).
-/

namespace CUP

/-- A Python scalar value as inspected by the behavior-prior code
(`isinstance` checks against `int`, `float`, `str`; truthiness).
`vbool` is separate because Python `bool` is a subclass of `int`. -/
inductive Value where
  | vint (n : Int)
  | vfloat (q : ℚ)
  | vbool (b : Bool)
  | vstr (s : String)
  | vnull
  deriving DecidableEq, Repr

/-- Python truthiness of a scalar value. -/
def Value.truthy : Value → Bool
  | .vint n => n != 0
  | .vfloat q => q != 0
  | .vbool b => b
  | .vstr s => s != ""
  | .vnull => false

/-- `isinstance (v, (int, float))`; Python `bool` is an `int`. -/
def Value.isNumber : Value → Bool
  | .vint _ => true
  | .vfloat _ => true
  | .vbool _ => true
  | _ => false

/-- `isinstance (v, int)`; Python `bool` is an `int`. -/
def Value.isInt : Value → Bool
  | .vint _ => true
  | .vbool _ => true
  | _ => false

/-- Numeric value of a Python scalar (`float (v)`), when it is a number. -/
def Value.toRat : Value → Option ℚ
  | .vint n => some (n : ℚ)
  | .vfloat q => some q
  | .vbool b => some (if b then 1 else 0)
  | _ => none

/-- Python dict modelled as an association list (first match wins). -/
abbrev Args := List (String × Value)

/-- `d.get (k)`: first binding of `k`, `none` when absent. -/
def lookupKey {α : Type} : List (String × α) → String → Option α
  | [], _ => none
  | (k0, v) :: rest, k => if k0 = k then some v else lookupKey rest k

/-- `d[k] = v`: replace the first binding of `k`, else append. -/
def setKey {α : Type} : List (String × α) → String → α → List (String × α)
  | [], k, v => [(k, v)]
  | (k0, v0) :: rest, k, v =>
      if k0 = k then (k, v) :: rest else (k0, v0) :: setKey rest k v

/-- Python `a or b` applied to two `dict.get` results (`none` is `None`). -/
def pyOr (a b : Option Value) : Option Value :=
  match a with
  | some v => if v.truthy then some v else b
  | none => b

/-- `Counter`-style increment on an association list of counts. -/
def counterIncr : List (String × Nat) → String → List (String × Nat)
  | [], k => [(k, 1)]
  | (k0, c) :: rest, k =>
      if k0 = k then (k0, c + 1) :: rest else (k0, c) :: counterIncr rest k

/-- `ActionStats` from `behavior_prior.py`.  `std_x_sq`/`std_y_sq` hold the
squares of the Python `std_x`/`std_y` (see the module note); `m2x`, `m2y`,
`n` are the Welford scratch attributes `_m2x`, `_m2y`, `_n` (absent in a
fresh Python dataclass, so defaulted; the code reads them only after the
branch that creates them has run). -/
structure ActionStats where
  count : Nat := 0
  mean_x : Option ℚ := none
  mean_y : Option ℚ := none
  std_x_sq : Option ℚ := none
  std_y_sq : Option ℚ := none
  m2x : ℚ := 0
  m2y : ℚ := 0
  n : Nat := 0
  direction_counts : Option (List (String × Nat)) := none
  magnitudes : Option (List Int) := none
  deriving DecidableEq, Repr

/-- The set of clickable action kinds (`ClickableActions`). -/
def ClickableActions : List String := ["click_at", "hover_at"]

/-- The set of coordinate-bearing action kinds (`CoordActions`). -/
def CoordActions : List String := ["click_at", "hover_at", "scroll_at", "drag_and_drop"]

/-- The coordinate block of `fit_from_episodes`: the incremental (Welford)
mean/variance update for one accepted coordinate pair.  On the first sample
(`st.mean_x is None`) the means are initialised and the stds set to `0.0`;
afterwards the running means, `_m2` accumulators and the unbiased,
1.0-floored variances are updated. -/
def coordUpdate (st : ActionStats) (x y : ℚ) : ActionStats :=
  match st.mean_x with
  | none =>
      { st with mean_x := some x, mean_y := some y,
                std_x_sq := some 0, std_y_sq := some 0,
                m2x := 0, m2y := 0, n := 1 }
  | some mx =>
      let n' := st.n + 1
      let dx := x - mx
      let mx' := mx + dx / (n' : ℚ)
      let m2x' := st.m2x + dx * (x - mx')
      let my := st.mean_y.getD 0
      let dy := y - my
      let my' := my + dy / (n' : ℚ)
      let m2y' := st.m2y + dy * (y - my')
      { st with
        mean_x := some mx', mean_y := some my',
        m2x := m2x', m2y := m2y', n := n',
        std_x_sq := some (max (m2x' / ((max (n' - 1) 1 : Nat) : ℚ)) 1),
        std_y_sq := some (max (m2y' / ((max (n' - 1) 1 : Nat) : ℚ)) 1) }

/-- The scroll block of `fit_from_episodes`: histogram the direction string
and, for `scroll_at`, append an integer magnitude. -/
def scrollUpdate (name : String) (args : Args) (st : ActionStats) : ActionStats :=
  if name = "scroll_at" ∨ name = "scroll_document" then
    let dc := st.direction_counts.getD []
    let dc := match lookupKey args "direction" with
      | some (.vstr d) => counterIncr dc d
      | _ => dc
    let st := { st with direction_counts := some dc }
    if name = "scroll_at" then
      let mags := st.magnitudes.getD []
      match lookupKey args "magnitude" with
      | some (.vint m) => { st with magnitudes := some (mags ++ [m]) }
      | some (.vbool b) => { st with magnitudes := some (mags ++ [if b then 1 else 0]) }
      | _ => { st with magnitudes := some mags }
    else st
  else st

/-- One recorded step as read back by the fitting pass: the action's name
(`step.get ("action", \x7b\x7d).get ("name")`, skipped when falsy) and its
argument dict. -/
structure PyStep where
  name : Option String := none
  args : Args := []
  deriving DecidableEq, Repr

/-- One parsed episode index file (`ep.get ("steps", [])`). -/
structure Episode where
  steps : List PyStep := []
  deriving DecidableEq, Repr

/-- `BehaviorPrior`'s aggregate state. -/
structure BehaviorPrior where
  screen_w : Int
  screen_h : Int
  action_counts : List (String × Nat) := []
  action_stats : List (String × ActionStats) := []
  deriving DecidableEq, Repr

/-- `self.action_stats [name]` on a `defaultdict (ActionStats)` followed by
mutating the entry: update in place, creating a default entry on first use. -/
def statsUpdate (l : List (String × ActionStats)) (k : String)
    (f : ActionStats → ActionStats) : List (String × ActionStats) :=
  match l with
  | [] => [(k, f {})]
  | (k0, st) :: rest =>
      if k0 = k then (k0, f st) :: rest else (k0, st) :: statsUpdate rest k f

/-- The update `fit_from_episodes` applies to one kind's `ActionStats` for
one step: bump the count, run the coordinate block when the kind bears
coordinates and both extracted values are numeric (`x`/`y` falling back to
`destination_x`/`destination_y` through Python `or`), then the scroll
block. -/
def fitStatsOne (name : String) (args : Args) (st0 : ActionStats) : ActionStats :=
  let st := { st0 with count := st0.count + 1 }
  let st :=
    if name ∈ CoordActions then
      let xv := pyOr (lookupKey args "x") (lookupKey args "destination_x")
      let yv := pyOr (lookupKey args "y") (lookupKey args "destination_y")
      match xv.bind Value.toRat, yv.bind Value.toRat with
      | some xq, some yq => coordUpdate st xq yq
      | _, _ => st
    else st
  scrollUpdate name args st

/-- The per-step body of the fitting loop in `fit_from_episodes`. -/
def fitStep (p : BehaviorPrior) (step : PyStep) : BehaviorPrior :=
  match step.name with
  | none => p
  | some name =>
    if name = "" then p
    else
      { p with
        action_counts := counterIncr p.action_counts name,
        action_stats := statsUpdate p.action_stats name (fitStatsOne name step.args) }

/-- Fit one parsed episode: fold the step body over its steps. -/
def fitEpisode (p : BehaviorPrior) (ep : Episode) : BehaviorPrior :=
  ep.steps.foldl fitStep p

/-- The body of the finalisation loop of `fit_from_episodes`: a kind with
at most one observation whose std is still unset receives the fallback
`max (0.2 * dim, 1.0)` (stored squared here). -/
def finalizeOne (W H : Int) (st : ActionStats) : ActionStats :=
  if st.count ≤ 1 then
    let st := if st.std_x_sq = none
      then { st with std_x_sq := some ((max ((W : ℚ) * 0.2) 1) ^ 2) } else st
    let st := if st.std_y_sq = none
      then { st with std_y_sq := some ((max ((H : ℚ) * 0.2) 1) ^ 2) } else st
    st
  else st

/-- The finalisation pass of `fit_from_episodes` over all fitted kinds. -/
def finalizeStats (W H : Int) (l : List (String × ActionStats)) :
    List (String × ActionStats) :=
  l.map (fun kv => (kv.1, finalizeOne W H kv.2))

/-- The state of one episode's index file on disk: absent, unreadable
(`json.load` raises), or parsed. -/
inductive EpFile where
  | missing
  | malformed
  | parsed (ep : Episode)
  deriving DecidableEq, Repr

/-- One entry of the `episodes/` directory as seen by `iterdir ()`. -/
structure EpEntry where
  isDir : Bool := true
  file : EpFile := .missing
  deriving DecidableEq, Repr

/-- The episodes corpus handed to `fit_from_episodes`. -/
structure Corpus where
  dirExists : Bool := true
  entries : List EpEntry := []
  deriving DecidableEq, Repr

/-- The exceptions `fit_from_episodes` can raise. -/
inductive FitError where
  | fileNotFound
  | jsonDecodeError
  deriving DecidableEq, Repr

/-- The directory scan of `fit_from_episodes`: non-directories and entries
with a missing index file are skipped; a malformed index file raises
(`json.load` is not guarded), aborting the scan. -/
def fitEntries (p : BehaviorPrior) : List EpEntry → Except FitError BehaviorPrior
  | [] => .ok p
  | e :: rest =>
    if ¬ e.isDir then fitEntries p rest
    else match e.file with
      | .missing => fitEntries p rest
      | .malformed => .error .jsonDecodeError
      | .parsed ep => fitEntries (fitEpisode p ep) rest

/-- `BehaviorPrior.fit_from_episodes`: a missing episodes directory raises
`FileNotFoundError`; otherwise scan the entries and finalise the stds. -/
def fit_from_episodes (p : BehaviorPrior) (c : Corpus) : Except FitError BehaviorPrior :=
  if ¬ c.dirExists then .error .fileNotFound
  else (fitEntries p c.entries).map (fun p' =>
    { p' with action_stats := finalizeStats p'.screen_w p'.screen_h p'.action_stats })

/-- The JSON object produced by `ActionStats.to_dict` (and consumed by
`from_dict`): the aggregate's persisted contents.  `direction_counts` and
`magnitudes` are serialized as `dict (… or \x7b\x7d)` / `list (… or [])`,
so a `None` histogram serializes the same as an empty one. -/
structure StatsDict where
  count : Nat
  mean_x : Option ℚ
  mean_y : Option ℚ
  std_x_sq : Option ℚ
  std_y_sq : Option ℚ
  direction_counts : List (String × Nat)
  magnitudes : List Int
  deriving DecidableEq, Repr

/-- `ActionStats.to_dict`. -/
def ActionStats.to_dict (st : ActionStats) : StatsDict :=
  { count := st.count, mean_x := st.mean_x, mean_y := st.mean_y,
    std_x_sq := st.std_x_sq, std_y_sq := st.std_y_sq,
    direction_counts := st.direction_counts.getD [],
    magnitudes := st.magnitudes.getD [] }

/-- `ActionStats.from_dict`: a fresh dataclass with the serialized fields
restored (`direction_counts` becomes a `Counter`, `magnitudes` a list; the
Welford scratch attributes are not restored). -/
def ActionStats.from_dict (d : StatsDict) : ActionStats :=
  { count := d.count, mean_x := d.mean_x, mean_y := d.mean_y,
    std_x_sq := d.std_x_sq, std_y_sq := d.std_y_sq,
    m2x := 0, m2y := 0, n := 0,
    direction_counts := some d.direction_counts,
    magnitudes := some d.magnitudes }

/-- The snapshot document written by `BehaviorPrior.save` and read by
`BehaviorPrior.load`.  Python's `json` round-trips ints, floats, strings
and dict entry order exactly, so the document is modelled structurally. -/
structure PriorDump where
  screen_size : Int × Int
  action_counts : List (String × Nat)
  action_stats : List (String × StatsDict)
  deriving DecidableEq, Repr

/-- `BehaviorPrior.save` (the document it serializes). -/
def BehaviorPrior.save (p : BehaviorPrior) : PriorDump :=
  { screen_size := (p.screen_w, p.screen_h),
    action_counts := p.action_counts,
    action_stats := p.action_stats.map (fun kv => (kv.1, kv.2.to_dict)) }

/-- `BehaviorPrior.load` (reading such a document back). -/
def BehaviorPrior.load (d : PriorDump) : BehaviorPrior :=
  { screen_w := d.screen_size.1, screen_h := d.screen_size.2,
    action_counts := d.action_counts,
    action_stats := d.action_stats.map (fun kv => (kv.1, ActionStats.from_dict kv.2)) }

/-- The unclamped draw of `sample_coordinates`: screen centre when no
statistics exist for the kind, otherwise a Gaussian draw per axis.  The
oracle `gauss mean sigmaSq` models `int (random.gauss (mean, sigma))` (it
receives the variance, i.e. the squared sigma the code passes); the sigma
fallback `st.std_x or screen_w * 0.2` replaces a `None` or zero std. -/
def rawCoordSample (p : BehaviorPrior) (name : String) (gauss : ℚ → ℚ → Int) : Int × Int :=
  match lookupKey p.action_stats name with
  | none => (p.screen_w / 2, p.screen_h / 2)
  | some st =>
    match st.mean_x with
    | none => (p.screen_w / 2, p.screen_h / 2)
    | some mx =>
      let sigmaSqX := match st.std_x_sq with
        | some v => if v = 0 then ((p.screen_w : ℚ) * 0.2) ^ 2 else v
        | none => ((p.screen_w : ℚ) * 0.2) ^ 2
      let sigmaSqY := match st.std_y_sq with
        | some v => if v = 0 then ((p.screen_h : ℚ) * 0.2) ^ 2 else v
        | none => ((p.screen_h : ℚ) * 0.2) ^ 2
      (gauss mx sigmaSqX, gauss (st.mean_y.getD 0) sigmaSqY)

/-- `BehaviorPrior.sample_coordinates`: the raw draw clamped into
`[0, screen_w - 1] × [0, screen_h - 1]`. -/
def sample_coordinates (p : BehaviorPrior) (name : String) (gauss : ℚ → ℚ → Int) : Int × Int :=
  let xy := rawCoordSample p name gauss
  (max 0 (min (p.screen_w - 1) xy.1), max 0 (min (p.screen_h - 1) xy.2))

/-- The draws consumed by one `sample_scroll` call. -/
structure ScrollDraws where
  /-- models `random.randint (1, total)` as `rweight % total + 1`. -/
  rweight : Nat := 0
  /-- index draw for `random.choice` over the default direction list. -/
  dirChoiceIdx : Nat := 0
  /-- index draw for `random.choice` over magnitudes / the default set. -/
  magChoiceIdx : Nat := 0
  deriving Repr

/-- `random.choice` over a list, driven by an index draw. -/
def listChoice {α : Type} (dflt : α) (l : List α) (i : Nat) : α :=
  l.getD (i % l.length) dflt

/-- The cumulative-count walk of `sample_scroll`: first bucket whose
cumulative sum reaches the draw `r`; the pre-loop default is the first
direction. -/
def weightedPickGo (r cum : Nat) (dflt : String) : List (String × Nat) → String
  | [] => dflt
  | (d, c) :: rest => if r ≤ cum + c then d else weightedPickGo r (cum + c) dflt rest

/-- `BehaviorPrior.sample_scroll`: weighted direction from the learned
histogram when one exists (an empty or `None` histogram is falsy),
uniform fallback otherwise; magnitude for point scroll from the learned
samples or the default set, `0` for document scroll. -/
def sample_scroll (p : BehaviorPrior) (at_ : Bool) (dr : ScrollDraws) : String × Int :=
  let name := if at_ then "scroll_at" else "scroll_document"
  let st := lookupKey p.action_stats name
  let chosen : String :=
    match st with
    | some s =>
      match s.direction_counts with
      | some ((d0, c0) :: rest) =>
        let items := (d0, c0) :: rest
        let total := (items.map Prod.snd).sum
        weightedPickGo (dr.rweight % total + 1) 0 d0 items
      | _ =>
        if at_ then listChoice "up" ["up", "down", "left", "right"] dr.dirChoiceIdx
        else listChoice "up" ["up", "down"] dr.dirChoiceIdx
    | none =>
        if at_ then listChoice "up" ["up", "down", "left", "right"] dr.dirChoiceIdx
        else listChoice "up" ["up", "down"] dr.dirChoiceIdx
  let mag : Int :=
    if at_ then
      match st with
      | some s =>
        match s.magnitudes with
        | some (m :: ms) => listChoice m (m :: ms) dr.magChoiceIdx
        | _ => listChoice 200 [200, 400, 800] dr.magChoiceIdx
      | none => listChoice 200 [200, 400, 800] dr.magChoiceIdx
    else 0
  (chosen, mag)

/-- The `need` test of `validate_or_adjust`'s coordinate block: `x` or `y`
non-numeric, or the pair outside `[0, W) × [0, H)`. -/
def coordNeedsRepair (p : BehaviorPrior) (out : Args) : Bool :=
  match (lookupKey out "x").bind Value.toRat, (lookupKey out "y").bind Value.toRat with
  | some xq, some yq =>
    decide (xq < 0) || decide (yq < 0) ||
    decide ((p.screen_w : ℚ) ≤ xq) || decide ((p.screen_h : ℚ) ≤ yq)
  | _, _ => true

/-- The coordinate block of `validate_or_adjust`: for coordinate kinds,
replace `x`/`y` with a freshly sampled pair when either is non-numeric or
out of `[0, W) × [0, H)`. -/
def coordRepair (p : BehaviorPrior) (name : String) (out : Args)
    (gauss : ℚ → ℚ → Int) : Args :=
  if name ∈ CoordActions then
    if coordNeedsRepair p out then
      setKey (setKey out "x" (.vint (sample_coordinates p name gauss).1)) "y"
        (.vint (sample_coordinates p name gauss).2)
    else out
  else out

/-- The direction part of `validate_or_adjust`'s scroll block: replace a
direction that is not one of the four direction strings by the sampled
default. -/
def dirRepair (p : BehaviorPrior) (name : String) (out : Args)
    (dr : ScrollDraws) : Args :=
  if (match lookupKey out "direction" with
      | some (.vstr d) => d == "up" || d == "down" || d == "left" || d == "right"
      | _ => false) then out
  else setKey out "direction" (.vstr (sample_scroll p (name = "scroll_at") dr).1)

/-- The magnitude part of `validate_or_adjust`'s scroll block: for point
scroll, replace a non-integer magnitude by the sampled default. -/
def magRepair (p : BehaviorPrior) (name : String) (out : Args)
    (dr : ScrollDraws) : Args :=
  if name = "scroll_at" then
    match lookupKey out "magnitude" with
    | some v => if v.isInt then out
        else setKey out "magnitude" (.vint (sample_scroll p (name = "scroll_at") dr).2)
    | none => setKey out "magnitude" (.vint (sample_scroll p (name = "scroll_at") dr).2)
  else out

/-- The scroll block of `validate_or_adjust`: fill an invalid or missing
direction, and (point scroll only) a non-integer magnitude, from
`sample_scroll`. -/
def scrollRepair (p : BehaviorPrior) (name : String) (out : Args)
    (dr : ScrollDraws) : Args :=
  if name = "scroll_at" ∨ name = "scroll_document" then
    magRepair p name (dirRepair p name out dr) dr
  else out

/-- `BehaviorPrior.validate_or_adjust`: returns a repaired copy of the
proposed args (`out = dict (args)`), running the coordinate block and
then the scroll block. -/
def validate_or_adjust (p : BehaviorPrior) (name : String) (args : Args)
    (gauss : ℚ → ℚ → Int) (dr : ScrollDraws) : Args :=
  scrollRepair p name (coordRepair p name args gauss) dr

/-! ## The episode collector (`src/data_pipeline/collector.py`) -/

/-- Characters after the first `//` of a URL, if any. -/
def afterDoubleSlash : List Char → Option (List Char)
  | [] => none
  | '/' :: '/' :: rest => some rest
  | _ :: rest => afterDoubleSlash rest

/-- The authority component: characters up to the first `/`, `?` or `#`. -/
def takeHost : List Char → List Char
  | [] => []
  | c :: rest => if c = '/' ∨ c = '?' ∨ c = '#' then [] else c :: takeHost rest

/-- Model of `urllib.parse.urlparse (url).netloc` for the `scheme://…`
URLs the collector observes: the authority after the first `//`, empty
when the URL has no `//`. -/
def urlNetloc (url : String) : String :=
  match afterDoubleSlash url.toList with
  | some rest => String.mk (takeHost rest)
  | none => ""

/-- `str.endswith` (structural, so that it evaluates in the kernel). -/
def strEndsWith (s t : String) : Bool :=
  decide (s.toList.drop (s.toList.length - t.toList.length) = t.toList)

/-- `_domain_allowed`: an absent or empty whitelist allows everything;
otherwise the URL's host must end with one of the whitelisted suffixes.
(`urlparse` does not raise on strings, so the fail-open `except` branch
is unreachable here.) -/
def domain_allowed (url : String) (whitelist : Option (List String)) : Bool :=
  match whitelist with
  | none => true
  | some ws => if ws.isEmpty then true else ws.any (fun d => strEndsWith (urlNetloc url) d)

/-- `ActionRecord` as the collector builds it. -/
structure ActionRec where
  name : String
  args : Args := []
  deriving DecidableEq, Repr, Inhabited

/-- `StepRecord` (the fields the collection logic determines; screenshot
paths, timestamps and the empty `meta` dict are file-system artefacts). -/
structure StepRecord where
  step_index : Nat
  obs_url : String
  action : ActionRec
  next_obs_url : String
  deriving DecidableEq, Repr, Inhabited

/-- `CollectConfig` (the fields the loop logic reads). -/
structure CollectConfig where
  episodes : Nat := 5
  max_steps_per_episode : Nat := 30
  initial_url : String := "https://www.google.com"
  whitelist_domains : Option (List String) := none
  deriving Repr

/-- Oracle for one loop iteration: the random policy's draw and the
environment's responses on each path the iteration can take. -/
structure StepOracle where
  /-- `_random_action`'s draw for this iteration. -/
  sampled : ActionRec
  /-- whether the dispatched environment call raises. -/
  execFails : Bool := false
  /-- `next_state.url` when the dispatch succeeds. -/
  urlAfterExec : String
  /-- `computer.current_state ().url` substituted after a failure. -/
  urlAfterFail : String := ""
  /-- `computer.navigate (cfg.initial_url).url` on the guard branch. -/
  urlAfterNav : String := ""
  deriving Repr, Inhabited

/-- The loop-carried state: the current observation's URL and the Python
local variable `action` (assigned only when an action is sampled, and —
being a function-level local — retained across iterations and episodes;
the recorded action of a guard step is this variable when it exists,
via `action if (quote) action (quote) in locals () else ActionRecord (navigate)`). -/
structure LoopState where
  obs_url : String
  lastAction : Option ActionRec := none
  deriving DecidableEq, Repr

/-- One iteration of the step loop of `collect_episodes`: either the
domain guard forces `navigate (cfg.initial_url)` (recording the stale
`action` local when one exists, else a fresh navigate record), or the
sampled action is dispatched, a failure being recovered by substituting
`current_state ()` while still recording the sampled action. -/
def collectStep (cfg : CollectConfig) (t : Nat) (s : LoopState) (o : StepOracle) :
    StepRecord × LoopState :=
  if domain_allowed s.obs_url cfg.whitelist_domains then
    let action := o.sampled
    let nextUrl := if o.execFails then o.urlAfterFail else o.urlAfterExec
    ({ step_index := t, obs_url := s.obs_url, action := action, next_obs_url := nextUrl },
     { obs_url := nextUrl, lastAction := some action })
  else
    let nextUrl := o.urlAfterNav
    let recorded := match s.lastAction with
      | some a => a
      | none => { name := "navigate", args := [("url", Value.vstr cfg.initial_url)] }
    ({ step_index := t, obs_url := s.obs_url, action := recorded, next_obs_url := nextUrl },
     { obs_url := nextUrl, lastAction := s.lastAction })

/-- The step loop from index `t`: one `StepRecord` appended per oracle. -/
def collectSteps (cfg : CollectConfig) (t : Nat) (s : LoopState) :
    List StepOracle → List StepRecord × LoopState
  | [] => ([], s)
  | o :: os =>
    let r := collectStep cfg t s o
    let rest := collectSteps cfg (t + 1) r.2 os
    (r.1 :: rest.1, rest.2)

/-- Oracle for one episode: the URL observed after `open_web_browser`
and one step oracle per iteration of the `for t in range (1, max+1)`
loop (so `steps.length = cfg.max_steps_per_episode` in any real run). -/
structure EpisodeOracle where
  initial_obs_url : String
  steps : List StepOracle
  deriving Repr

/-- The episode loop, threading the `action` local across episodes. -/
def collectEpisodesGo (cfg : CollectConfig) (last : Option ActionRec) :
    List EpisodeOracle → List (List StepRecord)
  | [] => []
  | e :: es =>
    let r := collectSteps cfg 1 { obs_url := e.initial_obs_url, lastAction := last } e.steps
    r.1 :: collectEpisodesGo cfg r.2.lastAction es

/-- `collect_episodes`: the `action` local starts unassigned. -/
def collect_episodes (cfg : CollectConfig) (eps : List EpisodeOracle) :
    List (List StepRecord) :=
  collectEpisodesGo cfg none eps

/-! ## Reference definitions for the refinement claim

`coordFold` is the code's incremental path: the Welford block of
`fit_from_episodes` folded over the coordinate pairs accepted for one
action kind.  `specDirectMean` / `specDirectVarFloored` are written from
the spec's words (direct whole-sample statistics) for comparison. -/

/-- The coordinate samples of one action kind, pushed through the code's
incremental (Welford) update starting from a fresh `ActionStats`. -/
def coordFold (ps : List (ℚ × ℚ)) : ActionStats :=
  ps.foldl (fun st q => coordUpdate st q.1 q.2) {}

/-- From the spec's words: the direct whole-sample mean. -/
def specDirectMean (xs : List ℚ) : ℚ := xs.sum / (xs.length : ℚ)

/-- From the spec's words: the unbiased direct variance — sum of squared
deviations divided by `n - 1` — floored at `1.0`. -/
def specDirectVarFloored (xs : List ℚ) : ℚ :=
  max ((xs.map (fun x => (x - specDirectMean xs) ^ 2)).sum / ((xs.length - 1 : ℕ) : ℚ)) 1

/-- A concrete 5-step collection run mirroring the spec's scenario: no
whitelist, an execution failure injected on step 3. -/
def scenarioCfg : CollectConfig :=
  { episodes := 1, max_steps_per_episode := 5,
    initial_url := "https://www.google.com", whitelist_domains := none }

/-- The oracle for the scenario run: the policy's five draws and the
environment's responses, step 3 failing. -/
def scenarioOracles : List StepOracle :=
  [ { sampled := ⟨"click_at", [("x", .vint 10), ("y", .vint 90)]⟩,
      urlAfterExec := "https://www.google.com/1" },
    { sampled := ⟨"scroll_document", [("direction", .vstr "down")]⟩,
      urlAfterExec := "https://www.google.com/2" },
    { sampled := ⟨"hover_at", [("x", .vint 30), ("y", .vint 100)]⟩,
      execFails := true, urlAfterExec := "https://www.google.com/3",
      urlAfterFail := "https://www.google.com/recovered" },
    { sampled := ⟨"go_back", []⟩, urlAfterExec := "https://www.google.com/4" },
    { sampled := ⟨"wait_5_seconds", []⟩, urlAfterExec := "https://www.google.com/5" } ]

/-- The scenario episode: initial observation and the five step oracles. -/
def scenarioEpisode : EpisodeOracle := ⟨"https://www.google.com", scenarioOracles⟩

/-- Closed form of the Welford fold, derived for the proofs below: running
mean `S/n`, accumulator `Q - S^2/n`, and the stds the code stores at each
stage (`0` while only one sample has been seen, the unbiased floored
variance afterwards). -/
def welfordClosedForm (ps : List (ℚ × ℚ)) : ActionStats :=
  { count := 0,
    mean_x := some ((ps.map Prod.fst).sum / (ps.length : ℚ)),
    mean_y := some ((ps.map Prod.snd).sum / (ps.length : ℚ)),
    std_x_sq := some (if ps.length ≤ 1 then 0
      else max (((ps.map (fun q => q.1 ^ 2)).sum - (ps.map Prod.fst).sum ^ 2 / (ps.length : ℚ))
        / ((ps.length - 1 : ℕ) : ℚ)) 1),
    std_y_sq := some (if ps.length ≤ 1 then 0
      else max (((ps.map (fun q => q.2 ^ 2)).sum - (ps.map Prod.snd).sum ^ 2 / (ps.length : ℚ))
        / ((ps.length - 1 : ℕ) : ℚ)) 1),
    m2x := (ps.map (fun q => q.1 ^ 2)).sum - (ps.map Prod.fst).sum ^ 2 / (ps.length : ℚ),
    m2y := (ps.map (fun q => q.2 ^ 2)).sum - (ps.map Prod.snd).sum ^ 2 / (ps.length : ℚ),
    n := ps.length,
    direction_counts := none,
    magnitudes := none }

/-- The spec scenario's coordinate samples: three clicks at `(10, 10)`,
`(20, 20)`, `(30, 30)`. -/
def c4ps : List (ℚ × ℚ) := [(10, 10), (20, 20), (30, 30)]

/-- A recorded step whose `x` and `y` are both `0` (falsy) and whose
destination fallbacks are absent. -/
def c9step : PyStep := ⟨some "click_at", [("x", .vint 0), ("y", .vint 0)]⟩

/-- A fresh prior on a 100 × 80 screen. -/
def c9prior : BehaviorPrior := ⟨100, 80, [], []⟩

/-! ## Helper lemmas -/

theorem lookupKey_setKey_ne {α : Type} (m : List (String × α)) (k k' : String) (v : α)
    (h : ¬ (k' = k)) : lookupKey (setKey m k' v) k = lookupKey m k := by
  induction m with
  | nil => simp [setKey, lookupKey, h]
  | cons kv rest ih =>
    obtain ⟨k0, v0⟩ := kv
    by_cases hk : k0 = k'
    · subst hk
      simp [setKey, lookupKey, h]
    · simp only [setKey, if_neg hk, lookupKey]
      by_cases hk0 : k0 = k
      · simp [hk0]
      · simp [hk0, ih]

theorem lookupKey_statsUpdate (l : List (String × ActionStats)) (k : String)
    (f : ActionStats → ActionStats) :
    lookupKey (statsUpdate l k f) k = some (f ((lookupKey l k).getD {})) := by
  induction l with
  | nil => simp [statsUpdate, lookupKey]
  | cons kv rest ih =>
    obtain ⟨k0, st⟩ := kv
    by_cases hk : k0 = k
    · subst hk; simp [statsUpdate, lookupKey]
    · simp [statsUpdate, hk, lookupKey, ih]

theorem lookupKey_map_value {α β : Type} (g : α → β) (l : List (String × α)) (k : String) :
    lookupKey (l.map (fun kv => (kv.1, g kv.2))) k = (lookupKey l k).map g := by
  induction l with
  | nil => simp [lookupKey]
  | cons kv rest ih =>
    by_cases hk : kv.1 = k
    · simp [lookupKey, hk]
    · simp [lookupKey, hk, ih]

/-- `scrollUpdate` touches only the histogram and magnitude fields. -/
theorem scrollUpdate_coord_fields (name : String) (args : Args) (st : ActionStats) :
    (scrollUpdate name args st).count = st.count ∧
    (scrollUpdate name args st).mean_x = st.mean_x ∧
    (scrollUpdate name args st).mean_y = st.mean_y ∧
    (scrollUpdate name args st).std_x_sq = st.std_x_sq ∧
    (scrollUpdate name args st).std_y_sq = st.std_y_sq ∧
    (scrollUpdate name args st).m2x = st.m2x ∧
    (scrollUpdate name args st).m2y = st.m2y ∧
    (scrollUpdate name args st).n = st.n := by
  unfold scrollUpdate
  repeat' split <;> simp_all

/-! ## Claims -/

/-- C6: round-tripping a `BehaviorPrior` through `save` then `load` yields
a prior with the same screen size, the same `action_counts`, and per kind
identical `ActionStats` contents — `count`, means, stds, histogram and
magnitudes, as serialized by `to_dict` (a `None` histogram and an empty
one serialize to the same empty contents). -/
theorem C6_save_load_roundtrip (p : BehaviorPrior) :
    (BehaviorPrior.load (BehaviorPrior.save p)).screen_w = p.screen_w ∧
    (BehaviorPrior.load (BehaviorPrior.save p)).screen_h = p.screen_h ∧
    (BehaviorPrior.load (BehaviorPrior.save p)).action_counts = p.action_counts ∧
    (BehaviorPrior.load (BehaviorPrior.save p)).action_stats.map
        (fun kv => (kv.1, kv.2.to_dict))
      = p.action_stats.map (fun kv => (kv.1, kv.2.to_dict)) := by
  refine ⟨rfl, rfl, rfl, ?_⟩
  simp only [BehaviorPrior.load, BehaviorPrior.save, List.map_map]
  apply List.map_congr_left
  intro kv _
  rfl

/-- C7: for every screen size (positive, as a screen has at least one
pixel per axis), every action kind and every Gaussian draw, the pair
returned by `sample_coordinates` lies in `[0, W) × [0, H)`. -/
theorem C7_sample_coordinates_in_bounds (p : BehaviorPrior) (name : String)
    (gauss : ℚ → ℚ → Int) (hW : 1 ≤ p.screen_w) (hH : 1 ≤ p.screen_h) :
    0 ≤ (sample_coordinates p name gauss).1 ∧
    (sample_coordinates p name gauss).1 < p.screen_w ∧
    0 ≤ (sample_coordinates p name gauss).2 ∧
    (sample_coordinates p name gauss).2 < p.screen_h := by
  refine ⟨?_, ?_, ?_, ?_⟩ <;> simp only [sample_coordinates] <;> omega

theorem C7_sample_coordinates_in_bounds_witness :
    (1 : Int) ≤ (⟨100, 80, [], []⟩ : BehaviorPrior).screen_w ∧
    (1 : Int) ≤ (⟨100, 80, [], []⟩ : BehaviorPrior).screen_h ∧
    (0 ≤ (sample_coordinates ⟨100, 80, [], []⟩ "click_at" (fun _ _ => 500)).1 ∧
     (sample_coordinates ⟨100, 80, [], []⟩ "click_at" (fun _ _ => 500)).1 < 100 ∧
     0 ≤ (sample_coordinates ⟨100, 80, [], []⟩ "click_at" (fun _ _ => 500)).2 ∧
     (sample_coordinates ⟨100, 80, [], []⟩ "click_at" (fun _ _ => 500)).2 < 80) :=
  ⟨by decide, by decide,
   C7_sample_coordinates_in_bounds ⟨100, 80, [], []⟩ "click_at" (fun _ _ => 500)
     (by decide) (by decide)⟩

/-- Skipping an entry whose index file is missing leaves the scan's result
unchanged. -/
theorem fitEntries_skip_missing (p : BehaviorPrior) (pre post : List EpEntry) :
    fitEntries p (pre ++ ⟨true, .missing⟩ :: post) = fitEntries p (pre ++ post) := by
  induction pre generalizing p with
  | nil => simp [fitEntries]
  | cons e rest ih =>
    simp only [List.cons_append, fitEntries]
    split
    · exact ih p
    · split
      · exact ih p
      · rfl
      · exact ih _

/-- A malformed index file anywhere among the (directory) entries makes the
scan raise. -/
theorem fitEntries_malformed_mem (l : List EpEntry) :
    ∀ (p : BehaviorPrior), (⟨true, .malformed⟩ : EpEntry) ∈ l →
      fitEntries p l = .error .jsonDecodeError := by
  induction l with
  | nil => intro p h; cases h
  | cons e rest ih =>
    intro p h
    rcases List.mem_cons.mp h with he | he
    · rw [← he]
      rfl
    · simp only [fitEntries]
      split
      · exact ih p he
      · split
        · exact ih p he
        · rfl
        · exact ih _ he

/-- C2, counterexample: the claim says the fit completes normally whenever
the episodes directory exists, no matter the contents of the individual
`episode.json` files; but a malformed (unparseable) index file makes
`fit_from_episodes` raise `json.JSONDecodeError` — the `json.load` call is
not guarded. -/
theorem C2_counterexample :
    fit_from_episodes ⟨100, 100, [], []⟩ ⟨true, [⟨true, .malformed⟩]⟩
      = .error .jsonDecodeError := rfl

/-- C2 (amended): a *missing* episode index file is skipped silently and
fitting continues over the remaining episodes; a *malformed* (unparseable)
index file raises, aborting the fit; an entirely missing episodes
directory raises `FileNotFoundError` to the caller. -/
theorem C2_amended_fit_error_handling (p : BehaviorPrior)
    (entries pre post : List EpEntry)
    (hmal : (⟨true, .malformed⟩ : EpEntry) ∈ entries) :
    fit_from_episodes p ⟨false, entries⟩ = .error .fileNotFound ∧
    fit_from_episodes p ⟨true, pre ++ ⟨true, .missing⟩ :: post⟩
      = fit_from_episodes p ⟨true, pre ++ post⟩ ∧
    fit_from_episodes p ⟨true, entries⟩ = .error .jsonDecodeError := by
  refine ⟨rfl, ?_, ?_⟩
  · simp only [fit_from_episodes]
    rw [fitEntries_skip_missing]
  · simp only [fit_from_episodes]
    rw [fitEntries_malformed_mem entries p hmal]
    rfl

theorem C2_amended_fit_error_handling_witness :
    ((⟨true, .malformed⟩ : EpEntry) ∈ [(⟨true, .malformed⟩ : EpEntry)]) ∧
    (fit_from_episodes ⟨100, 100, [], []⟩ ⟨false, [⟨true, .malformed⟩]⟩
       = .error .fileNotFound ∧
     fit_from_episodes ⟨100, 100, [], []⟩
         ⟨true, [⟨true, .missing⟩] ++ ⟨true, .missing⟩ :: []⟩
       = fit_from_episodes ⟨100, 100, [], []⟩ ⟨true, [⟨true, .missing⟩] ++ []⟩ ∧
     fit_from_episodes ⟨100, 100, [], []⟩ ⟨true, [⟨true, .malformed⟩]⟩
       = .error .jsonDecodeError) :=
  ⟨by decide,
   C2_amended_fit_error_handling ⟨100, 100, [], []⟩ [⟨true, .malformed⟩]
     [⟨true, .missing⟩] [] (by decide)⟩

/-- C3, counterexample: the claim says every kind observed exactly once
ends the fit with `std_x = 0.2 * W` (never zero).  But a coordinate kind
observed exactly once *with a valid coordinate pair* has its std set to
`0.0` by the Welford initialisation, and the finalisation pass only fills
stds that are still `None` — so the fitted `click_at` below keeps
`std² = 0`, not `(0.2 * 100)² = 400`. -/
theorem C3_counterexample :
    ((fit_from_episodes ⟨100, 100, [], []⟩
        ⟨true, [⟨true, .parsed ⟨[⟨some "click_at", [("x", .vint 5), ("y", .vint 5)]⟩]⟩⟩]⟩).toOption.bind
      (fun p => lookupKey p.action_stats "click_at")).map
        (fun st => (st.count, st.std_x_sq, st.std_y_sq))
      = some (1, some 0, some 0) ∧
    ((0.2 : ℚ) * 100) ^ 2 ≠ 0 := ⟨by decide, by norm_num⟩

/-- C3 (amended): after `fit_from_episodes`, an action kind observed at
most once *whose std is still unset* (it contributed no valid coordinate
pair) gets the fallback std `max (0.2 * dim, 1.0)` per axis; a coordinate
kind observed once with a valid pair instead keeps the std `0.0` set by
the Welford initialisation (see `C3_counterexample`). -/
theorem C3_amended_single_observation_fallback (p : BehaviorPrior) (c : Corpus)
    (p1 : BehaviorPrior) (k : String) (st : ActionStats)
    (hdir : c.dirExists = true)
    (hfit : fitEntries p c.entries = .ok p1)
    (hcount : st.count ≤ 1)
    (hst : lookupKey p1.action_stats k = some st)
    (hx : st.std_x_sq = none) (hy : st.std_y_sq = none) :
    ∃ q, fit_from_episodes p c = .ok q ∧
      lookupKey q.action_stats k
        = some { st with std_x_sq := some ((max ((p1.screen_w : ℚ) * 0.2) 1) ^ 2),
                         std_y_sq := some ((max ((p1.screen_h : ℚ) * 0.2) 1) ^ 2) } := by
  refine ⟨{ p1 with action_stats := finalizeStats p1.screen_w p1.screen_h p1.action_stats },
          ?_, ?_⟩
  · simp [fit_from_episodes, hdir, hfit, Except.map]
  · simp only [finalizeStats, lookupKey_map_value, hst, Option.map_some']
    simp [finalizeOne, hcount, hx, hy]

theorem C3_amended_single_observation_fallback_witness :
    (fitEntries ⟨100, 80, [], []⟩ [⟨true, .parsed ⟨[⟨some "go_back", []⟩]⟩⟩]
       = .ok ⟨100, 80, [("go_back", 1)], [("go_back", { count := 1 })]⟩) ∧
    (∃ q, fit_from_episodes ⟨100, 80, [], []⟩
            ⟨true, [⟨true, .parsed ⟨[⟨some "go_back", []⟩]⟩⟩]⟩ = .ok q ∧
       lookupKey q.action_stats "go_back"
         = some { ({ count := 1 } : ActionStats) with
                    std_x_sq := some ((max ((100 : ℚ) * 0.2) 1) ^ 2),
                    std_y_sq := some ((max ((80 : ℚ) * 0.2) 1) ^ 2) }) :=
  ⟨rfl,
   C3_amended_single_observation_fallback ⟨100, 80, [], []⟩
     ⟨true, [⟨true, .parsed ⟨[⟨some "go_back", []⟩]⟩⟩]⟩
     ⟨100, 80, [("go_back", 1)], [("go_back", { count := 1 })]⟩
     "go_back" { count := 1 } rfl rfl (by decide) (by decide) rfl rfl⟩

/-- C1: the claim says a guard-triggered step always records a `navigate`
action to the configured initial URL.  The code's recorded action is
`action if (quote) action (quote) in locals () else ActionRecord (navigate …)`,
and the local `action` persists from earlier iterations: with whitelist
`["example.com"]`, after step 1 (host allowed) samples `click_at` and the
environment lands on `evil.com`, step 2's guard fires (its observation's
host is not whitelisted, conjunct 1) yet its `StepRecord` carries the
stale `click_at`, not `navigate` (conjuncts 2–3).  The guard branch's own
`else` literal shows the recorded action was intended to be the forced
navigation, as the spec states — the `in locals ()` test is the slip. -/
theorem C1_code_bug_stale_action_on_guard :
    domain_allowed "https://evil.com/x" (some ["example.com"]) = false ∧
    ((collect_episodes
        { episodes := 1, max_steps_per_episode := 2,
          initial_url := "https://www.example.com",
          whitelist_domains := some ["example.com"] }
        [⟨"https://www.example.com",
          [{ sampled := ⟨"click_at", [("x", .vint 5), ("y", .vint 5)]⟩,
             urlAfterExec := "https://evil.com/x" },
           { sampled := ⟨"scroll_document", [("direction", .vstr "down")]⟩,
             urlAfterExec := "", urlAfterNav := "https://www.example.com" }]⟩]).headD []).map
      (fun s => (s.step_index, s.obs_url, s.action.name))
      = [(1, "https://www.example.com", "click_at"),
         (2, "https://evil.com/x", "click_at")] ∧
    "click_at" ≠ "navigate" := by decide

/-- When the extracted x-value is not numeric, the coordinate block is
skipped: only the count (and possibly the scroll fields) change. -/
theorem fitStatsOne_skip (name : String) (args : Args) (st0 : ActionStats)
    (hxv : (pyOr (lookupKey args "x") (lookupKey args "destination_x")).bind Value.toRat
            = none) :
    fitStatsOne name args st0
      = scrollUpdate name args { st0 with count := st0.count + 1 } := by
  unfold fitStatsOne
  by_cases hmem : name ∈ CoordActions
  · simp only [if_pos hmem, hxv]
  · simp only [if_neg hmem]

/-- When the extracted y-value is not numeric, the coordinate block is
likewise skipped, whatever the x-value: only the count (and possibly the
scroll fields) change. -/
theorem fitStatsOne_skip_y (name : String) (args : Args) (st0 : ActionStats)
    (hyv : (pyOr (lookupKey args "y") (lookupKey args "destination_y")).bind Value.toRat
            = none) :
    fitStatsOne name args st0
      = scrollUpdate name args { st0 with count := st0.count + 1 } := by
  unfold fitStatsOne
  by_cases hmem : name ∈ CoordActions
  · simp only [if_pos hmem, hyv]
    split <;> simp_all
  · simp only [if_neg hmem]

/-- C9: during fitting, a coordinate argument equal to `0` is falsy under
Python `or`, so the matching destination fallback is consulted instead:
`destination_x` when `x = 0` (conjunct 1) and `destination_y` when
`y = 0` (conjunct 2); and when that consulted fallback is absent or
non-numeric, the step contributes nothing to the kind's coordinate
statistics — means, stds and Welford accumulators unchanged — even
though the kind's count is still incremented (conjunct 3 for the x axis,
conjunct 4 for the y axis). -/
theorem C9_zero_coordinate_treated_as_absent (p : BehaviorPrior) (step : PyStep)
    (name : String)
    (hname : step.name = some name) (hmem : name ∈ CoordActions) :
    (lookupKey step.args "x" = some (.vint 0) →
      pyOr (lookupKey step.args "x") (lookupKey step.args "destination_x")
        = lookupKey step.args "destination_x") ∧
    (lookupKey step.args "y" = some (.vint 0) →
      pyOr (lookupKey step.args "y") (lookupKey step.args "destination_y")
        = lookupKey step.args "destination_y") ∧
    (lookupKey step.args "x" = some (.vint 0) →
     (lookupKey step.args "destination_x").bind Value.toRat = none →
      (lookupKey (fitStep p step).action_stats name).map
          (fun st => (st.mean_x, st.mean_y, st.std_x_sq, st.std_y_sq, st.m2x, st.m2y, st.n))
        = some (((lookupKey p.action_stats name).getD {}).mean_x,
                ((lookupKey p.action_stats name).getD {}).mean_y,
                ((lookupKey p.action_stats name).getD {}).std_x_sq,
                ((lookupKey p.action_stats name).getD {}).std_y_sq,
                ((lookupKey p.action_stats name).getD {}).m2x,
                ((lookupKey p.action_stats name).getD {}).m2y,
                ((lookupKey p.action_stats name).getD {}).n) ∧
      (lookupKey (fitStep p step).action_stats name).map ActionStats.count
        = some (((lookupKey p.action_stats name).getD {}).count + 1)) ∧
    (lookupKey step.args "y" = some (.vint 0) →
     (lookupKey step.args "destination_y").bind Value.toRat = none →
      (lookupKey (fitStep p step).action_stats name).map
          (fun st => (st.mean_x, st.mean_y, st.std_x_sq, st.std_y_sq, st.m2x, st.m2y, st.n))
        = some (((lookupKey p.action_stats name).getD {}).mean_x,
                ((lookupKey p.action_stats name).getD {}).mean_y,
                ((lookupKey p.action_stats name).getD {}).std_x_sq,
                ((lookupKey p.action_stats name).getD {}).std_y_sq,
                ((lookupKey p.action_stats name).getD {}).m2x,
                ((lookupKey p.action_stats name).getD {}).m2y,
                ((lookupKey p.action_stats name).getD {}).n) ∧
      (lookupKey (fitStep p step).action_stats name).map ActionStats.count
        = some (((lookupKey p.action_stats name).getD {}).count + 1)) := by
  have hne : ¬ (name = "") := by
    intro h; subst h; exact absurd hmem (by decide)
  have hmain : fitStatsOne name step.args ((lookupKey p.action_stats name).getD {})
        = scrollUpdate name step.args
            { (lookupKey p.action_stats name).getD {} with
                count := ((lookupKey p.action_stats name).getD {}).count + 1 } →
      (lookupKey (fitStep p step).action_stats name).map
          (fun st => (st.mean_x, st.mean_y, st.std_x_sq, st.std_y_sq, st.m2x, st.m2y, st.n))
        = some (((lookupKey p.action_stats name).getD {}).mean_x,
                ((lookupKey p.action_stats name).getD {}).mean_y,
                ((lookupKey p.action_stats name).getD {}).std_x_sq,
                ((lookupKey p.action_stats name).getD {}).std_y_sq,
                ((lookupKey p.action_stats name).getD {}).m2x,
                ((lookupKey p.action_stats name).getD {}).m2y,
                ((lookupKey p.action_stats name).getD {}).n) ∧
      (lookupKey (fitStep p step).action_stats name).map ActionStats.count
        = some (((lookupKey p.action_stats name).getD {}).count + 1) := by
    intro hskip
    constructor <;>
    · simp only [fitStep, hname, if_neg hne]
      simp only [lookupKey_statsUpdate, Option.map_some']
      rw [hskip]
      obtain ⟨hc, hmx, hmy, hsx, hsy, h2x, h2y, hn⟩ :=
        scrollUpdate_coord_fields name step.args
          { (lookupKey p.action_stats name).getD {} with
              count := ((lookupKey p.action_stats name).getD {}).count + 1 }
      simp [hc, hmx, hmy, hsx, hsy, h2x, h2y, hn]
  refine ⟨?_, ?_, ?_, ?_⟩
  · intro hx0
    rw [hx0]
    rfl
  · intro hy0
    rw [hy0]
    rfl
  · intro hx0 hdx
    refine hmain (fitStatsOne_skip name step.args _ ?_)
    have e : pyOr (lookupKey step.args "x") (lookupKey step.args "destination_x")
        = lookupKey step.args "destination_x" := by rw [hx0]; rfl
    rw [e, hdx]
  · intro hy0 hdy
    refine hmain (fitStatsOne_skip_y name step.args _ ?_)
    have e : pyOr (lookupKey step.args "y") (lookupKey step.args "destination_y")
        = lookupKey step.args "destination_y" := by rw [hy0]; rfl
    rw [e, hdy]

theorem C9_zero_coordinate_treated_as_absent_witness :
    (c9step.name = some "click_at") ∧
    ("click_at" ∈ CoordActions) ∧
    ((lookupKey c9step.args "x" = some (.vint 0) →
       pyOr (lookupKey c9step.args "x") (lookupKey c9step.args "destination_x")
         = lookupKey c9step.args "destination_x") ∧
     (lookupKey c9step.args "y" = some (.vint 0) →
       pyOr (lookupKey c9step.args "y") (lookupKey c9step.args "destination_y")
         = lookupKey c9step.args "destination_y") ∧
     (lookupKey c9step.args "x" = some (.vint 0) →
      (lookupKey c9step.args "destination_x").bind Value.toRat = none →
       (lookupKey (fitStep c9prior c9step).action_stats "click_at").map
           (fun st => (st.mean_x, st.mean_y, st.std_x_sq, st.std_y_sq, st.m2x, st.m2y, st.n))
         = some (((lookupKey c9prior.action_stats "click_at").getD {}).mean_x,
                 ((lookupKey c9prior.action_stats "click_at").getD {}).mean_y,
                 ((lookupKey c9prior.action_stats "click_at").getD {}).std_x_sq,
                 ((lookupKey c9prior.action_stats "click_at").getD {}).std_y_sq,
                 ((lookupKey c9prior.action_stats "click_at").getD {}).m2x,
                 ((lookupKey c9prior.action_stats "click_at").getD {}).m2y,
                 ((lookupKey c9prior.action_stats "click_at").getD {}).n) ∧
       (lookupKey (fitStep c9prior c9step).action_stats "click_at").map ActionStats.count
         = some (((lookupKey c9prior.action_stats "click_at").getD {}).count + 1)) ∧
     (lookupKey c9step.args "y" = some (.vint 0) →
      (lookupKey c9step.args "destination_y").bind Value.toRat = none →
       (lookupKey (fitStep c9prior c9step).action_stats "click_at").map
           (fun st => (st.mean_x, st.mean_y, st.std_x_sq, st.std_y_sq, st.m2x, st.m2y, st.n))
         = some (((lookupKey c9prior.action_stats "click_at").getD {}).mean_x,
                 ((lookupKey c9prior.action_stats "click_at").getD {}).mean_y,
                 ((lookupKey c9prior.action_stats "click_at").getD {}).std_x_sq,
                 ((lookupKey c9prior.action_stats "click_at").getD {}).std_y_sq,
                 ((lookupKey c9prior.action_stats "click_at").getD {}).m2x,
                 ((lookupKey c9prior.action_stats "click_at").getD {}).m2y,
                 ((lookupKey c9prior.action_stats "click_at").getD {}).n) ∧
       (lookupKey (fitStep c9prior c9step).action_stats "click_at").map ActionStats.count
         = some (((lookupKey c9prior.action_stats "click_at").getD {}).count + 1))) :=
  ⟨rfl, by decide,
   C9_zero_coordinate_treated_as_absent c9prior c9step "click_at" rfl (by decide)⟩

/-- The coordinate block only ever writes the keys `x` and `y`. -/
theorem lookupKey_coordRepair_ne (p : BehaviorPrior) (name : String) (m : Args)
    (gauss : ℚ → ℚ → Int) (k : String) (hx : ¬ (k = "x")) (hy : ¬ (k = "y")) :
    lookupKey (coordRepair p name m gauss) k = lookupKey m k := by
  unfold coordRepair
  split
  · split
    · rw [lookupKey_setKey_ne _ _ _ _ (fun h => hy h.symm),
          lookupKey_setKey_ne _ _ _ _ (fun h => hx h.symm)]
    · rfl
  · rfl

/-- The scroll block only ever writes the keys `direction` and
`magnitude`. -/
theorem lookupKey_scrollRepair_ne (p : BehaviorPrior) (name : String) (m : Args)
    (dr : ScrollDraws) (k : String)
    (hd : ¬ (k = "direction")) (hm : ¬ (k = "magnitude")) :
    lookupKey (scrollRepair p name m dr) k = lookupKey m k := by
  have hdir : ∀ (m' : Args), lookupKey (dirRepair p name m' dr) k = lookupKey m' k := by
    intro m'
    unfold dirRepair
    split
    · rfl
    · rw [lookupKey_setKey_ne _ _ _ _ (fun h => hd h.symm)]
  have hmag : ∀ (m' : Args), lookupKey (magRepair p name m' dr) k = lookupKey m' k := by
    intro m'
    unfold magRepair
    split
    · split
      · split
        · rfl
        · rw [lookupKey_setKey_ne _ _ _ _ (fun h => hm h.symm)]
      · rw [lookupKey_setKey_ne _ _ _ _ (fun h => hm h.symm)]
    · rfl
  unfold scrollRepair
  split
  · rw [hmag, hdir]
  · rfl

/-- C10: `validate_or_adjust` only ever rewrites the keys `x`, `y`,
`direction` and `magnitude`; every other key of the proposed argument
mapping (including `drag_and_drop`'s `destination_x`/`destination_y`,
whatever their values) is looked up unchanged in the returned mapping.
(The input itself is never mutated: the code copies it with
`out = dict (args)`, modelled here by value semantics.) -/
theorem C10_validate_or_adjust_frame (p : BehaviorPrior) (name : String) (args : Args)
    (gauss : ℚ → ℚ → Int) (dr : ScrollDraws) (k : String)
    (hx : ¬ (k = "x")) (hy : ¬ (k = "y"))
    (hd : ¬ (k = "direction")) (hm : ¬ (k = "magnitude")) :
    lookupKey (validate_or_adjust p name args gauss dr) k = lookupKey args k := by
  rw [validate_or_adjust, lookupKey_scrollRepair_ne p name _ dr k hd hm,
      lookupKey_coordRepair_ne p name args gauss k hx hy]

theorem C10_validate_or_adjust_frame_witness :
    ¬ (("destination_x" : String) = "x") ∧ ¬ (("destination_x" : String) = "y") ∧
    ¬ (("destination_x" : String) = "direction") ∧
    ¬ (("destination_x" : String) = "magnitude") ∧
    lookupKey (validate_or_adjust ⟨100, 80, [], []⟩ "drag_and_drop"
        [("x", .vint 5), ("y", .vint 5), ("destination_x", .vint 1000),
         ("destination_y", .vint 9)]
        (fun _ _ => 3) ⟨0, 0, 0⟩) "destination_x"
      = lookupKey
          [("x", .vint 5), ("y", .vint 5), ("destination_x", .vint 1000),
           ("destination_y", .vint 9)] "destination_x" :=
  ⟨by decide, by decide, by decide, by decide,
   C10_validate_or_adjust_frame ⟨100, 80, [], []⟩ "drag_and_drop"
     [("x", .vint 5), ("y", .vint 5), ("destination_x", .vint 1000),
      ("destination_y", .vint 9)]
     (fun _ _ => 3) ⟨0, 0, 0⟩ "destination_x"
     (by decide) (by decide) (by decide) (by decide)⟩

/-- Numeric, in-bounds coordinates do not trigger the repair test. -/
theorem coordNeedsRepair_false (p : BehaviorPrior) (out : Args) (xq yq : ℚ)
    (hx : (lookupKey out "x").bind Value.toRat = some xq)
    (hy : (lookupKey out "y").bind Value.toRat = some yq)
    (hx0 : 0 ≤ xq) (hxW : xq < (p.screen_w : ℚ))
    (hy0 : 0 ≤ yq) (hyH : yq < (p.screen_h : ℚ)) :
    coordNeedsRepair p out = false := by
  unfold coordNeedsRepair
  rw [hx, hy]
  simp only [Bool.or_eq_false_iff, decide_eq_false_iff_not, not_lt, not_le]
  exact ⟨⟨⟨hx0, hy0⟩, hxW⟩, hyH⟩

/-- The coordinate block leaves valid arguments entirely unchanged. -/
theorem coordRepair_of_valid (p : BehaviorPrior) (name : String) (out : Args)
    (gauss : ℚ → ℚ → Int) (xq yq : ℚ)
    (hx : (lookupKey out "x").bind Value.toRat = some xq)
    (hy : (lookupKey out "y").bind Value.toRat = some yq)
    (hx0 : 0 ≤ xq) (hxW : xq < (p.screen_w : ℚ))
    (hy0 : 0 ≤ yq) (hyH : yq < (p.screen_h : ℚ)) :
    coordRepair p name out gauss = out := by
  unfold coordRepair
  rw [coordNeedsRepair_false p out xq yq hx hy hx0 hxW hy0 hyH]
  simp

/-- C8: `validate_or_adjust` is idempotent on already-valid coordinates:
for a coordinate action whose `x` and `y` are numeric and inside
`[0, W) × [0, H)`, a second application (with arbitrary fresh random
draws) returns the same coordinates as the first, which are themselves
the input's coordinates unchanged. -/
theorem C8_validate_or_adjust_idempotent_on_valid (p : BehaviorPrior) (name : String)
    (args : Args) (g1 g2 : ℚ → ℚ → Int) (d1 d2 : ScrollDraws) (xq yq : ℚ)
    (_hmem : name ∈ CoordActions)
    (hx : (lookupKey args "x").bind Value.toRat = some xq)
    (hy : (lookupKey args "y").bind Value.toRat = some yq)
    (hx0 : 0 ≤ xq) (hxW : xq < (p.screen_w : ℚ))
    (hy0 : 0 ≤ yq) (hyH : yq < (p.screen_h : ℚ)) :
    lookupKey (validate_or_adjust p name (validate_or_adjust p name args g1 d1) g2 d2) "x"
      = lookupKey (validate_or_adjust p name args g1 d1) "x" ∧
    lookupKey (validate_or_adjust p name (validate_or_adjust p name args g1 d1) g2 d2) "y"
      = lookupKey (validate_or_adjust p name args g1 d1) "y" ∧
    lookupKey (validate_or_adjust p name args g1 d1) "x" = lookupKey args "x" ∧
    lookupKey (validate_or_adjust p name args g1 d1) "y" = lookupKey args "y" := by
  have h1x : lookupKey (validate_or_adjust p name args g1 d1) "x" = lookupKey args "x" := by
    rw [validate_or_adjust, lookupKey_scrollRepair_ne p name _ d1 "x" (by decide) (by decide),
        coordRepair_of_valid p name args g1 xq yq hx hy hx0 hxW hy0 hyH]
  have h1y : lookupKey (validate_or_adjust p name args g1 d1) "y" = lookupKey args "y" := by
    rw [validate_or_adjust, lookupKey_scrollRepair_ne p name _ d1 "y" (by decide) (by decide),
        coordRepair_of_valid p name args g1 xq yq hx hy hx0 hxW hy0 hyH]
  have hx1 : (lookupKey (validate_or_adjust p name args g1 d1) "x").bind Value.toRat
      = some xq := by rw [h1x]; exact hx
  have hy1 : (lookupKey (validate_or_adjust p name args g1 d1) "y").bind Value.toRat
      = some yq := by rw [h1y]; exact hy
  have h2x : lookupKey
      (validate_or_adjust p name (validate_or_adjust p name args g1 d1) g2 d2) "x"
      = lookupKey (validate_or_adjust p name args g1 d1) "x" := by
    conv_lhs => rw [validate_or_adjust]
    rw [lookupKey_scrollRepair_ne p name _ d2 "x" (by decide) (by decide),
        coordRepair_of_valid p name _ g2 xq yq hx1 hy1 hx0 hxW hy0 hyH]
  have h2y : lookupKey
      (validate_or_adjust p name (validate_or_adjust p name args g1 d1) g2 d2) "y"
      = lookupKey (validate_or_adjust p name args g1 d1) "y" := by
    conv_lhs => rw [validate_or_adjust]
    rw [lookupKey_scrollRepair_ne p name _ d2 "y" (by decide) (by decide),
        coordRepair_of_valid p name _ g2 xq yq hx1 hy1 hx0 hxW hy0 hyH]
  exact ⟨h2x, h2y, h1x, h1y⟩

theorem C8_validate_or_adjust_idempotent_on_valid_witness :
    ("click_at" ∈ CoordActions) ∧
    ((lookupKey [("x", Value.vint 3), ("y", Value.vint 4)] "x").bind Value.toRat
        = some (3 : ℚ)) ∧
    ((lookupKey [("x", Value.vint 3), ("y", Value.vint 4)] "y").bind Value.toRat
        = some (4 : ℚ)) ∧
    ((0 : ℚ) ≤ 3) ∧ ((3 : ℚ) < ((100 : Int) : ℚ)) ∧
    ((0 : ℚ) ≤ 4) ∧ ((4 : ℚ) < ((80 : Int) : ℚ)) ∧
    (lookupKey (validate_or_adjust ⟨100, 80, [], []⟩ "click_at"
        (validate_or_adjust ⟨100, 80, [], []⟩ "click_at"
          [("x", Value.vint 3), ("y", Value.vint 4)] (fun _ _ => 0) ⟨0, 0, 0⟩)
        (fun _ _ => 7) ⟨1, 1, 1⟩) "x"
      = lookupKey (validate_or_adjust ⟨100, 80, [], []⟩ "click_at"
          [("x", Value.vint 3), ("y", Value.vint 4)] (fun _ _ => 0) ⟨0, 0, 0⟩) "x" ∧
     lookupKey (validate_or_adjust ⟨100, 80, [], []⟩ "click_at"
        (validate_or_adjust ⟨100, 80, [], []⟩ "click_at"
          [("x", Value.vint 3), ("y", Value.vint 4)] (fun _ _ => 0) ⟨0, 0, 0⟩)
        (fun _ _ => 7) ⟨1, 1, 1⟩) "y"
      = lookupKey (validate_or_adjust ⟨100, 80, [], []⟩ "click_at"
          [("x", Value.vint 3), ("y", Value.vint 4)] (fun _ _ => 0) ⟨0, 0, 0⟩) "y" ∧
     lookupKey (validate_or_adjust ⟨100, 80, [], []⟩ "click_at"
        [("x", Value.vint 3), ("y", Value.vint 4)] (fun _ _ => 0) ⟨0, 0, 0⟩) "x"
      = lookupKey [("x", Value.vint 3), ("y", Value.vint 4)] "x" ∧
     lookupKey (validate_or_adjust ⟨100, 80, [], []⟩ "click_at"
        [("x", Value.vint 3), ("y", Value.vint 4)] (fun _ _ => 0) ⟨0, 0, 0⟩) "y"
      = lookupKey [("x", Value.vint 3), ("y", Value.vint 4)] "y") :=
  ⟨by decide, by decide, by decide, by decide, by decide, by decide, by decide,
   C8_validate_or_adjust_idempotent_on_valid ⟨100, 80, [], []⟩ "click_at"
     [("x", Value.vint 3), ("y", Value.vint 4)] (fun _ _ => 0) (fun _ _ => 7)
     ⟨0, 0, 0⟩ ⟨1, 1, 1⟩ 3 4 (by decide) (by decide) (by decide) (by decide)
     (by decide) (by decide) (by decide)⟩

/-- Both branches of a loop iteration record the current step index. -/
theorem collectStep_index (cfg : CollectConfig) (t : Nat) (s : LoopState) (o : StepOracle) :
    (collectStep cfg t s o).1.step_index = t := by
  unfold collectStep; split <;> rfl

/-- Both branches record the pre-step observation. -/
theorem collectStep_obs (cfg : CollectConfig) (t : Nat) (s : LoopState) (o : StepOracle) :
    (collectStep cfg t s o).1.obs_url = s.obs_url := by
  unfold collectStep; split <;> rfl

/-- On an allowed step the sampled action is recorded — also when its
execution fails, in which case the next observation is the substituted
`current_state ()`. -/
theorem collectStep_allowed (cfg : CollectConfig) (t : Nat) (s : LoopState) (o : StepOracle)
    (h : domain_allowed s.obs_url cfg.whitelist_domains = true) :
    (collectStep cfg t s o).1.action = o.sampled ∧
    (collectStep cfg t s o).1.next_obs_url
      = (if o.execFails then o.urlAfterFail else o.urlAfterExec) := by
  unfold collectStep
  rw [if_pos h]
  exact ⟨rfl, rfl⟩

/-- The step loop produces one record per oracle, with consecutive
indices. -/
theorem collectSteps_length_indices (cfg : CollectConfig) (os : List StepOracle) :
    ∀ (t : Nat) (s : LoopState),
      (collectSteps cfg t s os).1.length = os.length ∧
      (collectSteps cfg t s os).1.map StepRecord.step_index = List.range' t os.length := by
  induction os with
  | nil => intro t s; exact ⟨rfl, rfl⟩
  | cons o os ih =>
    intro t s
    obtain ⟨ihl, ihm⟩ := ih (t + 1) (collectStep cfg t s o).2
    refine ⟨?_, ?_⟩
    · simp [collectSteps, ihl]
    · simp [collectSteps, List.range'_succ, collectStep_index, ihm]

/-- Pointwise contract of the step loop: the `i`-th record carries index
`t + i`, and when its observation passes the domain guard it records the
`i`-th sampled action and the environment's (possibly failure-substituted)
resulting URL. -/
theorem collectSteps_pointwise (cfg : CollectConfig) (os : List StepOracle) :
    ∀ (t : Nat) (s : LoopState) (i : Nat), i < os.length →
      ((collectSteps cfg t s os).1.getD i default).step_index = t + i ∧
      (domain_allowed ((collectSteps cfg t s os).1.getD i default).obs_url
          cfg.whitelist_domains = true →
        ((collectSteps cfg t s os).1.getD i default).action = (os.getD i default).sampled ∧
        ((collectSteps cfg t s os).1.getD i default).next_obs_url
          = (if (os.getD i default).execFails then (os.getD i default).urlAfterFail
             else (os.getD i default).urlAfterExec)) := by
  induction os with
  | nil => intro t s i hi; cases hi
  | cons o os ih =>
    intro t s i hi
    cases i with
    | zero =>
      refine ⟨?_, ?_⟩
      · simp [collectSteps, collectStep_index]
      · intro hall
        simp only [collectSteps, List.getD_cons_zero] at hall ⊢
        rw [collectStep_obs] at hall
        exact collectStep_allowed cfg t s o hall
    | succ j =>
      have hj : j < os.length := Nat.lt_of_succ_lt_succ hi
      obtain ⟨ih1, ih2⟩ := ih (t + 1) (collectStep cfg t s o).2 j hj
      refine ⟨?_, ?_⟩
      · simp only [collectSteps, List.getD_cons_succ]
        omega
      · intro hall
        simp only [collectSteps, List.getD_cons_succ] at hall ⊢
        exact ih2 hall

/-- The episode loop yields, for each episode oracle, exactly the records
of its step loop. -/
theorem collectEpisodesGo_mem (cfg : CollectConfig) :
    ∀ (eps : List EpisodeOracle) (last : Option ActionRec)
      (l : List StepRecord), l ∈ collectEpisodesGo cfg last eps →
      ∃ e ∈ eps, ∃ (s : LoopState), l = (collectSteps cfg 1 s e.steps).1 := by
  intro eps
  induction eps with
  | nil => intro last l hl; cases hl
  | cons e es ih =>
    intro last l hl
    rcases List.mem_cons.mp hl with hl | hl
    · exact ⟨e, List.mem_cons_self e es, ⟨e.initial_obs_url, last⟩, hl⟩
    · obtain ⟨e', he', s, hs⟩ := ih _ l hl
      exact ⟨e', List.mem_cons_of_mem e he', s, hs⟩

/-- C5: with `max_steps_per_episode = N`, every episode produced by
`collect_episodes` contains exactly `N` StepRecords with step indices
`1, …, N` in order (conjunct 1) — the step loop appends one record per
iteration on every path, so an execution failure never shortens or aborts
an episode; and (conjunct 2, the loop's pointwise contract) any step whose
observation passed the domain guard records exactly the originally sampled
action, its next observation being the substituted `current_state ()`
result when execution failed.  (The bounded pause, `time.sleep (0.5)`, is
a real-time effect outside the model.) -/
theorem C5_episode_length_and_failure_recovery (cfg : CollectConfig)
    (eps : List EpisodeOracle)
    (hlen : ∀ e ∈ eps, e.steps.length = cfg.max_steps_per_episode) :
    (∀ l ∈ collect_episodes cfg eps,
       l.length = cfg.max_steps_per_episode ∧
       l.map StepRecord.step_index = List.range' 1 cfg.max_steps_per_episode) ∧
    (∀ (s : LoopState) (os : List StepOracle) (i : Nat), i < os.length →
       ((collectSteps cfg 1 s os).1.getD i default).step_index = 1 + i ∧
       (domain_allowed ((collectSteps cfg 1 s os).1.getD i default).obs_url
           cfg.whitelist_domains = true →
         ((collectSteps cfg 1 s os).1.getD i default).action = (os.getD i default).sampled ∧
         ((collectSteps cfg 1 s os).1.getD i default).next_obs_url
           = (if (os.getD i default).execFails then (os.getD i default).urlAfterFail
              else (os.getD i default).urlAfterExec))) := by
  refine ⟨?_, fun s os i hi => collectSteps_pointwise cfg os 1 s i hi⟩
  intro l hl
  obtain ⟨e, he, s, hs⟩ := collectEpisodesGo_mem cfg eps none l hl
  obtain ⟨h1, h2⟩ := collectSteps_length_indices cfg e.steps 1 s
  subst hs
  rw [hlen e he] at h1 h2
  exact ⟨h1, h2⟩

theorem C5_episode_length_and_failure_recovery_witness :
    (∀ e ∈ [scenarioEpisode], e.steps.length = scenarioCfg.max_steps_per_episode) ∧
    ((∀ l ∈ collect_episodes scenarioCfg [scenarioEpisode],
        l.length = scenarioCfg.max_steps_per_episode ∧
        l.map StepRecord.step_index = List.range' 1 scenarioCfg.max_steps_per_episode) ∧
     (∀ (s : LoopState) (os : List StepOracle) (i : Nat), i < os.length →
        ((collectSteps scenarioCfg 1 s os).1.getD i default).step_index = 1 + i ∧
        (domain_allowed ((collectSteps scenarioCfg 1 s os).1.getD i default).obs_url
            scenarioCfg.whitelist_domains = true →
          ((collectSteps scenarioCfg 1 s os).1.getD i default).action
            = (os.getD i default).sampled ∧
          ((collectSteps scenarioCfg 1 s os).1.getD i default).next_obs_url
            = (if (os.getD i default).execFails then (os.getD i default).urlAfterFail
               else (os.getD i default).urlAfterExec)))) :=
  ⟨by decide,
   C5_episode_length_and_failure_recovery scenarioCfg [scenarioEpisode] (by decide)⟩

/-- The Welford fold in closed form (for a nonempty sample list). -/
theorem coordFold_closed (ps : List (ℚ × ℚ)) (hne : ps ≠ []) :
    coordFold ps = welfordClosedForm ps := by
  induction ps using List.reverseRecOn with
  | nil => exact absurd rfl hne
  | append_singleton l a ih =>
    rcases eq_or_ne l [] with rfl | hl
    · show (⟨0, some a.1, some a.2, some 0, some 0, 0, 0, 1, none, none⟩ : ActionStats) = _
      simp [welfordClosedForm, ActionStats.mk.injEq]
    · have h1 : 0 < l.length := List.length_pos.mpr hl
      have hq : ((l.length : ℚ)) ≠ 0 := Nat.cast_ne_zero.mpr (by omega)
      have hfold : coordFold (l ++ [a]) = coordUpdate (coordFold l) a.1 a.2 := by
        simp [coordFold, List.foldl_append]
      rw [hfold, ih hl]
      simp only [welfordClosedForm, coordUpdate]
      simp only [List.map_append, List.sum_append, List.length_append, List.map_cons,
        List.map_nil, List.sum_cons, List.sum_nil, List.length_cons, List.length_nil]
      have hmax : l.length ⊔ 1 = l.length := Nat.max_eq_left h1
      have hq1 : ((l.length : ℚ) + 1) ≠ 0 := by positivity
      have hif : ¬ (l.length + 1 ≤ 1) := by omega
      simp only [Nat.zero_add, add_zero, Nat.add_sub_cancel, hmax, if_neg hif,
        Option.getD_some, Option.some.injEq, ActionStats.mk.injEq]
      push_cast
      set nq : ℚ := (l.length : ℚ) with hnq
      set Sx : ℚ := (List.map Prod.fst l).sum with hSx
      set Qx : ℚ := (List.map (fun q => q.1 ^ 2) l).sum with hQx
      set Sy : ℚ := (List.map Prod.snd l).sum with hSy
      set Qy : ℚ := (List.map (fun q => q.2 ^ 2) l).sum with hQy
      have hm2x : Qx - Sx ^ 2 / nq +
          (a.1 - Sx / nq) * (a.1 - (Sx / nq + (a.1 - Sx / nq) / (nq + 1)))
          = Qx + a.1 ^ 2 - (Sx + a.1) ^ 2 / (nq + 1) := by
        field_simp
        ring
      have hm2y : Qy - Sy ^ 2 / nq +
          (a.2 - Sy / nq) * (a.2 - (Sy / nq + (a.2 - Sy / nq) / (nq + 1)))
          = Qy + a.2 ^ 2 - (Sy + a.2) ^ 2 / (nq + 1) := by
        field_simp
        ring
      have hmeanx : Sx / nq + (a.1 - Sx / nq) / (nq + 1) = (Sx + a.1) / (nq + 1) := by
        field_simp
        ring
      have hmeany : Sy / nq + (a.2 - Sy / nq) / (nq + 1) = (Sy + a.2) / (nq + 1) := by
        field_simp
        ring
      simp only [hm2x, hm2y]
      simp only [hmeanx, hmeany]
      exact ⟨trivial, trivial, trivial, trivial, trivial, trivial, trivial, trivial,
        trivial, trivial⟩

theorem sum_sq_dev (xs : List ℚ) (m : ℚ) :
    (xs.map (fun x => (x - m) ^ 2)).sum
      = (xs.map (fun x => x ^ 2)).sum - 2 * m * xs.sum + (xs.length : ℚ) * m ^ 2 := by
  induction xs with
  | nil => simp
  | cons a l ih =>
    simp only [List.map_cons, List.sum_cons, ih, List.length_cons]
    push_cast
    ring

theorem sum_sq_dev_centred (xs : List ℚ) (hxs : xs ≠ []) :
    (xs.map (fun x => (x - xs.sum / (xs.length : ℚ)) ^ 2)).sum
      = (xs.map (fun x => x ^ 2)).sum - xs.sum ^ 2 / (xs.length : ℚ) := by
  have h0 : 0 < xs.length := List.length_pos.mpr hxs
  have hq : ((xs.length : ℚ)) ≠ 0 := Nat.cast_ne_zero.mpr (by omega)
  rw [sum_sq_dev]
  field_simp
  ring

/-- C4: for every sequence of at least two coordinate pairs pushed through
the code's incremental (Welford) update for one action kind, the resulting
running means equal the direct whole-sample means, and the stored std (in
squared representation, conjuncts 3–4, hence also through `Real.sqrt`,
conjuncts 5–6) equals the square root of the unbiased direct variance —
sum of squared deviations over `n - 1` — floored at `1.0`.  Exact rational
arithmetic: the floating-point tolerance of the claim is `0`. -/
theorem C4_welford_matches_direct (ps : List (ℚ × ℚ)) (h2 : 2 ≤ ps.length) :
    (coordFold ps).mean_x = some (specDirectMean (ps.map Prod.fst)) ∧
    (coordFold ps).mean_y = some (specDirectMean (ps.map Prod.snd)) ∧
    (coordFold ps).std_x_sq = some (specDirectVarFloored (ps.map Prod.fst)) ∧
    (coordFold ps).std_y_sq = some (specDirectVarFloored (ps.map Prod.snd)) ∧
    (∀ v : ℚ, (coordFold ps).std_x_sq = some v →
      Real.sqrt (v : ℝ) = Real.sqrt ((specDirectVarFloored (ps.map Prod.fst) : ℚ) : ℝ)) ∧
    (∀ v : ℚ, (coordFold ps).std_y_sq = some v →
      Real.sqrt (v : ℝ) = Real.sqrt ((specDirectVarFloored (ps.map Prod.snd) : ℚ) : ℝ)) := by
  have hne : ps ≠ [] := by
    intro h
    rw [h] at h2
    simp at h2
  have hif : ¬ (ps.length ≤ 1) := by omega
  have e1 : specDirectVarFloored (ps.map Prod.fst)
      = max (((ps.map (fun q => q.1 ^ 2)).sum - (ps.map Prod.fst).sum ^ 2 / (ps.length : ℚ))
        / ((ps.length - 1 : ℕ) : ℚ)) 1 := by
    have hxs : (ps.map Prod.fst) ≠ [] := by simpa using hne
    unfold specDirectVarFloored specDirectMean
    rw [sum_sq_dev_centred _ hxs]
    simp [List.length_map, List.map_map, Function.comp_def]
  have e2 : specDirectVarFloored (ps.map Prod.snd)
      = max (((ps.map (fun q => q.2 ^ 2)).sum - (ps.map Prod.snd).sum ^ 2 / (ps.length : ℚ))
        / ((ps.length - 1 : ℕ) : ℚ)) 1 := by
    have hxs : (ps.map Prod.snd) ≠ [] := by simpa using hne
    unfold specDirectVarFloored specDirectMean
    rw [sum_sq_dev_centred _ hxs]
    simp [List.length_map, List.map_map, Function.comp_def]
  have em1 : specDirectMean (ps.map Prod.fst) = (ps.map Prod.fst).sum / (ps.length : ℚ) := by
    unfold specDirectMean
    rw [List.length_map]
  have em2 : specDirectMean (ps.map Prod.snd) = (ps.map Prod.snd).sum / (ps.length : ℚ) := by
    unfold specDirectMean
    rw [List.length_map]
  rw [coordFold_closed ps hne]
  have hx : (welfordClosedForm ps).std_x_sq = some (specDirectVarFloored (ps.map Prod.fst)) := by
    simp only [welfordClosedForm, if_neg hif, e1]
  have hy : (welfordClosedForm ps).std_y_sq = some (specDirectVarFloored (ps.map Prod.snd)) := by
    simp only [welfordClosedForm, if_neg hif, e2]
  refine ⟨?_, ?_, hx, hy, ?_, ?_⟩
  · simp only [welfordClosedForm, em1]
  · simp only [welfordClosedForm, em2]
  · intro v hv
    rw [hx] at hv
    rw [Option.some.injEq] at hv
    rw [hv]
  · intro v hv
    rw [hy] at hv
    rw [Option.some.injEq] at hv
    rw [hv]


theorem C4_welford_matches_direct_witness :
    2 ≤ c4ps.length ∧
    ((coordFold c4ps).mean_x = some (specDirectMean (c4ps.map Prod.fst)) ∧
     (coordFold c4ps).mean_y = some (specDirectMean (c4ps.map Prod.snd)) ∧
     (coordFold c4ps).std_x_sq = some (specDirectVarFloored (c4ps.map Prod.fst)) ∧
     (coordFold c4ps).std_y_sq = some (specDirectVarFloored (c4ps.map Prod.snd)) ∧
     (∀ v : ℚ, (coordFold c4ps).std_x_sq = some v →
       Real.sqrt (v : ℝ) = Real.sqrt ((specDirectVarFloored (c4ps.map Prod.fst) : ℚ) : ℝ)) ∧
     (∀ v : ℚ, (coordFold c4ps).std_y_sq = some v →
       Real.sqrt (v : ℝ) = Real.sqrt ((specDirectVarFloored (c4ps.map Prod.snd) : ℚ) : ℝ))) :=
  ⟨by decide, C4_welford_matches_direct c4ps (by decide)⟩

end CUP
